import Mathlib

/-!
Shallow embedding of `odl/tomo/backends/astra_setup.py`: conversion of ODL
geometry objects into ASTRA volume/projection geometry descriptors, data
links, projector and algorithm configuration aggregates.

Real-valued quantities are modelled over `ℚ` (the claims under study are
structural: index order, axis permutations, dispatch, caching and error
paths; none depends on floating-point rounding).  External collaborators
(the ODL discretization and geometry hierarchy, NumPy, the ASTRA backend)
are modelled at their documented interfaces; every function of the module
itself is translated line by line from the source.
-/

namespace AstraSetup

/-- Python exceptions raised by the module, by class and message. -/
inductive Err where
  | typeError (msg : String)
  | valueError (msg : String)
  | notImplementedError (msg : String)
deriving DecidableEq, Repr

/-! ### Capability registry

`ASTRA_FEATURES` is translated from the source dictionary.  A value is
`none` for Python `None` ("unsupported in any version"); otherwise the
list of requirement strings that are OR-ed together (a single string in
the source becomes a one-element list, as documented in the source
comment above the dictionary). -/

def ASTRA_FEATURES : List (String × Option (List String)) :=
  [ ("anisotropic_voxels_2d", none),
    ("anisotropic_voxels_3d", some [">=1.8"]),
    ("parallel2d_vec_geometry", none),
    ("cone2d_density_weighting", none),
    ("cone3d_hacky_density_weighting", some [">=1.8"]),
    ("cone3d_density_weighting", none),
    ("par3d_det_mid_pt_perp_to_axis", some [">=1.7.2"]),
    ("gpulink", none) ]

/-- Association-list lookup (first match), modelling Python dict lookup. -/
def assocFind {α : Type} (l : List (String × α)) (key : String) : Option α :=
  match l with
  | [] => none
  | (k, v) :: rest => if k = key then some v else assocFind rest key

/-- Modelled from the spec: `pkg_supports` (odl.util.utility, not under
src/) looks a feature up in the matrix; `None` means unsupported in any
version; a sequence of requirement strings is OR-ed, each string evaluated
against the detected version by the packaging machinery, abstracted here
as a `satisfies version requirement` oracle.  Returns `none` for an
unknown feature. -/
def pkg_supports (satisfies : String → String → Bool) (feature version : String)
    (features : List (String × Option (List String))) : Option Bool :=
  match assocFind features feature with
  | none => none
  | some none => some false
  | some (some reqs) => some (reqs.any (fun r => satisfies version r))

/-- `astra_supports(feature)`: Boolean feature query against
`ASTRA_FEATURES` and the detected ASTRA version.  The unknown-feature
path is unreachable for the features the module queries. -/
def astra_supports (satisfies : String → String → Bool) (version feature : String) : Bool :=
  (pkg_supports satisfies feature version ASTRA_FEATURES).getD false

/-! ### Volume geometry converter -/

/-- 2D ASTRA volume-geometry dictionary, fields as documented in the
source comment (lines 167-175). -/
structure VolGeom2 where
  GridRowCount : Nat
  GridColCount : Nat
  WindowMinX : ℚ
  WindowMaxX : ℚ
  WindowMinY : ℚ
  WindowMaxY : ℚ
deriving DecidableEq, Repr

/-- 3D ASTRA volume-geometry dictionary, fields as documented in the
source comment (lines 186-198). -/
structure VolGeom3 where
  GridRowCount : Nat
  GridColCount : Nat
  GridSliceCount : Nat
  WindowMinX : ℚ
  WindowMaxX : ℚ
  WindowMinY : ℚ
  WindowMaxY : ℚ
  WindowMinZ : ℚ
  WindowMaxZ : ℚ
deriving DecidableEq, Repr

inductive VolGeom where
  | two (g : VolGeom2)
  | three (g : VolGeom3)
deriving DecidableEq, Repr

/-- `astra.create_vol_geom` with 6 positional arguments.  Modelled from
the backend interface as documented in the source comment: arguments are
(rows, cols, min_x, max_x, min_y, max_y) and land in the like-named
descriptor fields. -/
def create_vol_geom2 (rows cols : Nat) (minx maxx miny maxy : ℚ) : VolGeom2 :=
  ⟨rows, cols, minx, maxx, miny, maxy⟩

/-- `astra.create_vol_geom` with 9 positional arguments.  Modelled from
the backend interface as documented in the source comment: arguments are
(rows, cols, slices, min_x, max_x, min_y, max_y, min_z, max_z). -/
def create_vol_geom3 (rows cols slices : Nat)
    (minx maxx miny maxy minz maxz : ℚ) : VolGeom3 :=
  ⟨rows, cols, slices, minx, maxx, miny, maxy, minz, maxz⟩

/-- The part of a `DiscreteLp` read by `astra_volume_geometry`: the
partition's shape, extents, the uniformity flag and the isotropic-cells
flag (all supplied by the discretization collaborator). -/
structure DiscreteLp where
  ndim : Nat
  partition_shape : List Nat
  partition_min_pt : List ℚ
  partition_max_pt : List ℚ
  is_uniform : Bool
  has_isotropic_cells : Bool
deriving DecidableEq, Repr

/-- Argument of `astra_volume_geometry`: either a `DiscreteLp` instance or
some other object (carrying only its repr string). -/
inductive VolInput where
  | discr (d : DiscreteLp)
  | notDiscr (r : String)

/-- `astra_volume_geometry(discr_reco)` translated from the source:
type check, uniformity check, then the 2D/3D branches with their
anisotropy gates and `create_vol_geom` calls. -/
def astra_volume_geometry (satisfies : String → String → Bool) (version : String)
    (input : VolInput) : Except Err VolGeom :=
  match input with
  | .notDiscr r =>
      .error (.typeError ("`discr_reco` " ++ r ++ " is not a DiscreteLp instance"))
  | .discr d =>
      if d.is_uniform = false then
        .error (.valueError "`discr_reco` is not uniformly discretized")
      else if d.ndim = 2 then
        if d.has_isotropic_cells = false ∧
            astra_supports satisfies version "anisotropic_voxels_2d" = false then
          .error (.notImplementedError
            ("non-isotropic pixels in 2d volumes not supported by ASTRA v" ++ version))
        else
          .ok (.two (create_vol_geom2
            (d.partition_shape.getD 1 0) (d.partition_shape.getD 0 0)
            (d.partition_min_pt.getD 0 0) (d.partition_max_pt.getD 0 0)
            (d.partition_min_pt.getD 1 0) (d.partition_max_pt.getD 1 0)))
      else if d.ndim = 3 then
        if d.has_isotropic_cells = false ∧
            astra_supports satisfies version "anisotropic_voxels_3d" = false then
          .error (.notImplementedError
            ("non-isotropic voxels in 3d volumes not supported by ASTRA v" ++ version))
        else
          .ok (.three (create_vol_geom3
            (d.partition_shape.getD 1 0) (d.partition_shape.getD 2 0)
            (d.partition_shape.getD 0 0)
            (d.partition_min_pt.getD 2 0) (d.partition_max_pt.getD 2 0)
            (d.partition_min_pt.getD 1 0) (d.partition_max_pt.getD 1 0)
            (d.partition_min_pt.getD 0 0) (d.partition_max_pt.getD 0 0)))
      else
        .error (.valueError "volume geometries of this dimension not supported by ASTRA")

/-! ### Projection geometry descriptors and vector builders -/

/-- ASTRA projection-geometry dictionaries produced by
`astra.create_proj_geom`, one constructor per type tag used by the
dispatcher; vector rows are lists of scalars (length 6 resp. 12). -/
inductive ProjGeom where
  | parallel (det_width : ℚ) (det_count : Nat) (angles : List ℚ)
  | fanflat_vec (det_count : Nat) (vec : List (List ℚ))
  | parallel3d_vec (det_row_count det_col_count : Nat) (vec : List (List ℚ))
  | cone_vec (det_row_count det_col_count : Nat) (vec : List (List ℚ))
deriving DecidableEq, Repr

/-- Which `isinstance` checks an ODL geometry object passes: exactly one
of the disjoint beam classes, or neither. -/
inductive BeamCls where
  | parallel
  | divergent
  | otherBeam
deriving DecidableEq, Repr

/-- The interface of an ODL `Geometry` object as consumed by this module:
angle sequence, detector partition data, detector size and flatness, the
per-angle geometric queries (2D and 3D variants as separate fields) and
the per-instance implementation cache. -/
structure Geometry where
  beam : BeamCls
  detector_flat : Bool
  ndim : Nat
  angles : List ℚ
  det_partition_is_uniform : Bool
  det_partition_shape : List Nat
  det_partition_cell_sides : List ℚ
  detector_size : Nat
  det_params_mid_pt : List ℚ
  src_position : ℚ → Fin 3 → ℚ
  src_position2 : ℚ → Fin 2 → ℚ
  det_point_position : ℚ → List ℚ → Fin 3 → ℚ
  det_point_position2 : ℚ → List ℚ → Fin 2 → ℚ
  det_axes : ℚ → Fin 2 → Fin 3 → ℚ
  det_axis2 : ℚ → Fin 2 → ℚ
  det_to_src : ℚ → List ℚ → Fin 3 → ℚ
  implementation_cache : List (String × ProjGeom)

/-- Body of the per-angle loop of `astra_conebeam_3d_geom_to_vec`:
columns 0-2 source position, 3-5 detector midpoint position, 6-8 first
detector axis scaled by `cell_sides[0]`, 9-11 second axis scaled by
`cell_sides[1]`, all in the natural (x, y, z) ordering. -/
def conebeam_3d_row (g : Geometry) (angle : ℚ) : List ℚ :=
  List.ofFn (g.src_position angle) ++
  List.ofFn (g.det_point_position angle g.det_params_mid_pt) ++
  List.ofFn (fun j => g.det_axes angle 0 j * g.det_partition_cell_sides.getD 0 0) ++
  List.ofFn (fun j => g.det_axes angle 1 j * g.det_partition_cell_sides.getD 1 0)

/-- Body of the per-angle loop of `astra_parallel_3d_geom_to_vec`: like
the cone-beam row, but the first triple is the negated detector-to-source
vector (the ray direction). -/
def parallel_3d_row (g : Geometry) (angle : ℚ) : List ℚ :=
  List.ofFn (fun j => -(g.det_to_src angle g.det_params_mid_pt j)) ++
  List.ofFn (g.det_point_position angle g.det_params_mid_pt) ++
  List.ofFn (fun j => g.det_axes angle 0 j * g.det_partition_cell_sides.getD 0 0) ++
  List.ofFn (fun j => g.det_axes angle 1 j * g.det_partition_cell_sides.getD 1 0)

/-- Body of the per-angle loop of `astra_conebeam_2d_geom_to_vec`:
columns 0-1 source position, 2-3 detector midpoint position, 4-5 the
detector axis scaled by `cell_sides[0]`. -/
def conebeam_2d_row (g : Geometry) (angle : ℚ) : List ℚ :=
  List.ofFn (g.src_position2 angle) ++
  List.ofFn (g.det_point_position2 angle g.det_params_mid_pt) ++
  List.ofFn (fun j => g.det_axis2 angle j * g.det_partition_cell_sides.getD 0 0)

/-- The column index list built by the loop
`for i in range(4): newind += [2 + 3*i, 1 + 3*i, 0 + 3*i]`. -/
def newind : List Nat :=
  (List.range 4).foldl (fun acc i => acc ++ [2 + 3 * i, 1 + 3 * i, 0 + 3 * i]) []

/-- NumPy fancy indexing `vectors[:, newind]` applied to one row: output
column `j` is input column `newind[j]`. -/
def permute_cols (row : List ℚ) : List ℚ :=
  newind.map (fun i => row.getD i 0)

/-- `astra_conebeam_3d_geom_to_vec(geometry)`: assemble one natural-order
row per angle, then apply the `newind` column permutation to every row. -/
def astra_conebeam_3d_geom_to_vec (g : Geometry) : List (List ℚ) :=
  (g.angles.map (conebeam_3d_row g)).map permute_cols

/-- `astra_parallel_3d_geom_to_vec(geometry)`: assemble one natural-order
row per angle, then apply the `newind` column permutation to every row. -/
def astra_parallel_3d_geom_to_vec (g : Geometry) : List (List ℚ) :=
  (g.angles.map (parallel_3d_row g)).map permute_cols

/-- `astra_conebeam_2d_geom_to_vec(geometry)`: one row per angle, no
permutation step. -/
def astra_conebeam_2d_geom_to_vec (g : Geometry) : List (List ℚ) :=
  g.angles.map (conebeam_2d_row g)

/-! ### Projection geometry dispatcher -/

/-- Argument of `astra_projection_geometry`: a `Geometry` instance or
some other object. -/
inductive PGInput where
  | geom (g : Geometry)
  | notGeometry (r : String)

/-- Observable outcome of `astra_projection_geometry`: the returned
descriptor or raised exception, the state of the geometry's
implementation cache afterwards, and the number of vector-builder
invocations performed (the call counter of the spec's testable
property). -/
structure PGOutcome where
  res : Except Err ProjGeom
  cache : List (String × ProjGeom)
  builderCalls : Nat

/-- The dispatch chain of `astra_projection_geometry` (lines 410-446):
beam class × detector flatness × dimension, returning the built
descriptor together with the number of vector-builder calls it made. -/
def proj_geom_dispatch (g : Geometry) : Except Err (ProjGeom × Nat) :=
  if g.beam = BeamCls.parallel ∧ g.detector_flat = true ∧ g.ndim = 2 then
    .ok (.parallel (g.det_partition_cell_sides.getD 0 0) g.detector_size g.angles, 0)
  else if g.beam = BeamCls.divergent ∧ g.detector_flat = true ∧ g.ndim = 2 then
    .ok (.fanflat_vec g.detector_size (astra_conebeam_2d_geom_to_vec g), 1)
  else if g.beam = BeamCls.parallel ∧ g.detector_flat = true ∧ g.ndim = 3 then
    .ok (.parallel3d_vec (g.det_partition_shape.getD 1 0) (g.det_partition_shape.getD 0 0)
          (astra_parallel_3d_geom_to_vec g), 1)
  else if g.beam = BeamCls.divergent ∧ g.detector_flat = true ∧ g.ndim = 3 then
    .ok (.cone_vec (g.det_partition_shape.getD 1 0) (g.det_partition_shape.getD 0 0)
          (astra_conebeam_3d_geom_to_vec g), 1)
  else
    .error (.notImplementedError "unknown ASTRA geometry type")

/-- `astra_projection_geometry(geometry)` translated from the source:
type check, cache shortcut, detector-uniformity check, dispatch, and the
final conditional cache store. -/
def astra_projection_geometry (input : PGInput) : PGOutcome :=
  match input with
  | .notGeometry r =>
      ⟨.error (.typeError ("`geometry` " ++ r ++ " is not a `Geometry` instance")), [], 0⟩
  | .geom g =>
      match assocFind g.implementation_cache "astra" with
      | some cached => ⟨.ok cached, g.implementation_cache, 0⟩
      | none =>
          if g.det_partition_is_uniform = false then
            ⟨.error (.valueError "non-uniform detector sampling is not supported"),
              g.implementation_cache, 0⟩
          else
            match proj_geom_dispatch g with
            | .error e => ⟨.error e, g.implementation_cache, 0⟩
            | .ok (proj_geom, calls) =>
                let cache' :=
                  match assocFind g.implementation_cache "astra" with
                  | none => ("astra", proj_geom) :: g.implementation_cache
                  | some _ => g.implementation_cache
                ⟨.ok proj_geom, cache', calls⟩

/-! ### Data buffer bridge -/

/-- A NumPy array as seen by this layer: the identity of its backing
storage, its dtype string, C-contiguity, and dimensionality. -/
structure NdArray where
  storageId : Nat
  dtype : String
  c_contiguous : Bool
  ndim : Nat
deriving DecidableEq, Repr

/-- The `data` argument of `astra_data`: absent, a NumPy array, a
`DiscreteLpElement` (wrapping an underlying array and carrying its
`ntuple.impl` tag), or some other object. -/
inductive DataArg where
  | noData
  | ndarray (a : NdArray)
  | lpElement (underlying : NdArray) (ntuple_impl : String)
  | otherObj (r : String)
deriving DecidableEq, Repr

/-- `np.asarray(data, dtype='float32', order='C')`.  Modelled from
NumPy's documented semantics: when the input already is a float32,
C-contiguous array it is returned itself (no copy); otherwise a fresh
converted copy is made, with backing storage `freshId`. -/
def np_asarray_f32_c (freshId : Nat) (a : NdArray) : NdArray :=
  if a.dtype = "float32" ∧ a.c_contiguous = true then a
  else { storageId := freshId, dtype := "float32", c_contiguous := true, ndim := a.ndim }

/-- `DiscreteLpElement.asarray()`: the underlying array, sharing its
storage (modelled from the spec: the numpy-impl element wraps its array
without copying). -/
def lpElementAsarray (underlying : NdArray) : NdArray :=
  underlying

/-- Result of `astra_data`: either a buffer linked into the backend
(`astra.dataNd.link`), recording the dtype string, the forwarded
geometry and the exact array handed over, or a zero-initialized created
buffer (`astra.dataNd.create`). -/
inductive AstraDataResult (γ : Type) where
  | linked (dtypeStr : String) (geom : γ) (buffer : NdArray)
  | created (dtypeStr : String) (geom : γ) (ndim : Nat)
deriving DecidableEq, Repr

/-- `astra_data(astra_geom, datatype, data, ndim, allow_copy)` translated
from the source; `freshId` names the backing storage a copy would get. -/
def astra_data {γ : Type} (freshId : Nat) (astra_geom : γ) (datatype : String)
    (data : DataArg) (ndim : Nat) (allow_copy : Bool) :
    Except Err (AstraDataResult γ) := do
  let ndim ←
    match data with
    | .noData => pure ndim
    | .ndarray a => pure a.ndim
    | .lpElement a _ => pure a.ndim
    | .otherObj r =>
        .error (.typeError ("`data` " ++ r ++
          " is neither DiscreteLpElement instance nor a `numpy.ndarray`"))
  let astra_dtype_str ←
    if datatype = "volume" then pure "-vol"
    else if datatype = "projection" then pure "-sino"
    else .error (.valueError "`datatype` not understood")
  if ndim = 2 ∨ ndim = 3 then
    match data with
    | .noData => pure (.created astra_dtype_str astra_geom ndim)
    | .ndarray a =>
        if allow_copy then
          pure (.linked astra_dtype_str astra_geom (np_asarray_f32_c freshId a))
        else
          pure (.linked astra_dtype_str astra_geom a)
    | .lpElement a impl =>
        if allow_copy then
          pure (.linked astra_dtype_str astra_geom (np_asarray_f32_c freshId (lpElementAsarray a)))
        else if impl = "numpy" then
          pure (.linked astra_dtype_str astra_geom (lpElementAsarray a))
        else
          .error (.notImplementedError
            "ASTRA supports data wrapping only for numpy.ndarray instances")
    | .otherObj _ => .error (.typeError "unreachable")
  else
    .error (.valueError "data structures of this dimension not supported")

/-! ### Projector factory -/

/-- The part of the `astra_proj_geom` dictionary read by
`astra_projector`: its `type` entry, if any. -/
structure ProjGeomDict where
  typeEntry : Option String
deriving DecidableEq, Repr

/-- `str(impl).lower()`: lower-case every character. -/
def pyLower (s : String) : String :=
  ⟨s.data.map Char.toLower⟩

/-- The CPU projector-type table `type_map_cpu`, including the alias
assignments for the `_vec` variants. -/
def type_map_cpu (proj_type vol_interp : String) : Option String :=
  if proj_type = "parallel" then
    if vol_interp = "nearest" then some "line"
    else if vol_interp = "linear" then some "linear" else none
  else if proj_type = "fanflat" ∨ proj_type = "fanflat_vec" then
    if vol_interp = "nearest" then some "line_fanflat"
    else if vol_interp = "linear" then some "line_fanflat" else none
  else if proj_type = "parallel3d" ∨ proj_type = "parallel3d_vec" then
    if vol_interp = "nearest" then some "linear3d"
    else if vol_interp = "linear" then some "linear3d" else none
  else if proj_type = "cone" ∨ proj_type = "cone_vec" then
    if vol_interp = "nearest" then some "linearcone"
    else if vol_interp = "linear" then some "linearcone" else none
  else none

/-- The GPU projector-type table `type_map_cuda`, including the alias
assignments. -/
def type_map_cuda (proj_type : String) : Option String :=
  if proj_type = "parallel" ∨ proj_type = "fanflat" ∨ proj_type = "fanflat_vec" then
    some "cuda"
  else if proj_type = "parallel3d" ∨ proj_type = "cone" ∨
      proj_type = "parallel3d_vec" ∨ proj_type = "cone_vec" then
    some "cuda3d"
  else none

/-- The projector configuration dictionary handed to
`astra.projector.create` / `astra.projector3d.create`. -/
structure ProjCfg where
  cfgType : Option String
  volumeGeometry : VolGeom
  projectionGeometry : ProjGeomDict
  densityWeighting : Bool
  backend3d : Bool
deriving DecidableEq, Repr

/-- `astra_projector(vol_interp, astra_vol_geom, astra_proj_geom, ndim,
impl)` translated from the source; returns the configuration aggregate
passed to the backend factory (with `backend3d` recording which factory
is invoked). -/
def astra_projector (satisfies : String → String → Bool) (version : String)
    (vol_interp : String) (astra_vol_geom : VolGeom) (astra_proj_geom : ProjGeomDict)
    (ndim : Nat) (impl : String) : Except Err ProjCfg := do
  if ¬(vol_interp = "nearest" ∨ vol_interp = "linear") then
    .error (.valueError "`vol_interp` not understood")
  let impl := pyLower impl
  if ¬(impl = "cpu" ∨ impl = "cuda") then
    .error (.valueError "`impl` not understood")
  match astra_proj_geom.typeEntry with
  | none => .error (.valueError "invalid projection geometry dict")
  | some proj_type =>
      if ndim = 3 ∧ impl = "cpu" then
        .error (.valueError "3D projectors not supported on CPU")
      else if ¬(proj_type = "parallel" ∨ proj_type = "fanflat" ∨
          proj_type = "fanflat_vec" ∨ proj_type = "parallel3d" ∨
          proj_type = "parallel3d_vec" ∨ proj_type = "cone" ∨
          proj_type = "cone_vec") then
        .error (.valueError "invalid geometry type")
      else
        pure
          { cfgType :=
              if impl = "cpu" then type_map_cpu proj_type vol_interp
              else type_map_cuda proj_type
            volumeGeometry := astra_vol_geom
            projectionGeometry := astra_proj_geom
            densityWeighting :=
              decide ((proj_type = "cone" ∨ proj_type = "cone_vec") ∧
                astra_supports satisfies version "cone3d_hacky_density_weighting" = true)
            backend3d := decide (ndim ≠ 2) }

/-! ### Algorithm factory -/

/-- The algorithm configuration dictionary handed to
`astra.algorithm.create`; optional fields model keys that are present
only on some paths. -/
structure AlgoCfg where
  cfgType : Option String
  projectorId : Option Nat
  projectionDataId : Nat
  volumeDataId : Option Nat
  reconstructionDataId : Option Nat
deriving DecidableEq, Repr

/-- The nested dictionary `algo_map[direction][ndim][impl]`. -/
def algo_map (direction : String) (ndim : Nat) (impl : String) : Option String :=
  if direction = "forward" then
    if ndim = 2 then
      if impl = "cpu" then some "FP" else if impl = "cuda" then some "FP_CUDA" else none
    else if ndim = 3 then
      if impl = "cpu" then none else if impl = "cuda" then some "FP3D_CUDA" else none
    else none
  else if direction = "backward" then
    if ndim = 2 then
      if impl = "cpu" then some "BP" else if impl = "cuda" then some "BP_CUDA" else none
    else if ndim = 3 then
      if impl = "cpu" then none else if impl = "cuda" then some "BP3D_CUDA" else none
    else none
  else none

/-- A CPython string object: its value and whether it is interned.
Source-code literals are compile-time interned, so `s is 'lit'` holds
exactly when `s` is the single interned object of that value, while
`s == 'lit'` and membership in a tuple compare values only. -/
structure PyStr where
  val : String
  interned : Bool
deriving DecidableEq, Repr

/-- The identity comparison `s is 'lit'` against a source literal:
true iff the value matches and the object is the interned one. -/
def pyIsLit (s : PyStr) (lit : String) : Bool :=
  s.val == lit && s.interned

/-- `astra_algorithm(direction, ndim, vol_id, sino_id, proj_id, impl)`
translated from the source; returns the configuration aggregate passed
to `astra.algorithm.create`.  The validation `direction not in
('forward', 'backward')` compares values, but the branch at source line
662 is the identity comparison `direction is 'forward'`, embedded as
`pyIsLit`. -/
def astra_algorithm (direction : PyStr) (ndim : Nat) (vol_id sino_id : Nat)
    (proj_id : Option Nat) (impl : String) : Except Err AlgoCfg := do
  if ¬(direction.val = "forward" ∨ direction.val = "backward") then
    .error (.valueError "`direction` not understood")
  if ¬(ndim = 2 ∨ ndim = 3) then
    .error (.valueError "projectors of this dimension not supported")
  if ¬(impl = "cpu" ∨ impl = "cuda") then
    .error (.valueError "`impl` type not understood")
  if ndim = 3 ∧ impl = "cpu" then
    .error (.notImplementedError "3d algorithms for CPU not supported by ASTRA")
  else if proj_id = none ∧ impl = "cpu" then
    .error (.valueError "cpu implementation requires projector ID")
  else if pyIsLit direction "forward" = true then
    pure
      { cfgType := algo_map direction.val ndim impl
        projectorId := proj_id
        projectionDataId := sino_id
        volumeDataId := some vol_id
        reconstructionDataId := none }
  else
    pure
      { cfgType := algo_map direction.val ndim impl
        projectorId := proj_id
        projectionDataId := sino_id
        volumeDataId := none
        reconstructionDataId := some vol_id }

/-! ### Shared concrete inputs for witnesses -/

/-- A 3-axis uniform isotropic test grid. -/
def sampleGrid3 : DiscreteLp :=
  { ndim := 3
    partition_shape := [4, 5, 6]
    partition_min_pt := [0, 1, 2]
    partition_max_pt := [10, 11, 12]
    is_uniform := true
    has_isotropic_cells := true }

/-- A 2-axis uniform anisotropic test grid. -/
def sampleGrid2aniso : DiscreteLp :=
  { ndim := 2
    partition_shape := [4, 5]
    partition_min_pt := [0, 1]
    partition_max_pt := [10, 11]
    is_uniform := true
    has_isotropic_cells := false }

/-- A parallel-beam flat 3D test geometry with one angle and an empty
implementation cache. -/
def sampleGeom3 : Geometry :=
  { beam := BeamCls.parallel
    detector_flat := true
    ndim := 3
    angles := [1]
    det_partition_is_uniform := true
    det_partition_shape := [6, 7]
    det_partition_cell_sides := [2, 3]
    detector_size := 42
    det_params_mid_pt := [0, 0]
    src_position := fun a j => a + (j : ℚ)
    src_position2 := fun a j => a + (j : ℚ)
    det_point_position := fun a _ j => a + (j : ℚ) + 10
    det_point_position2 := fun a _ j => a + (j : ℚ) + 10
    det_axes := fun a i j => a + (i : ℚ) + (j : ℚ) + 20
    det_axis2 := fun a j => a + (j : ℚ) + 20
    det_to_src := fun a _ j => a + (j : ℚ) + 30
    implementation_cache := [] }

/-- The same geometry with a pre-populated implementation cache. -/
def cachedGeom : Geometry :=
  { sampleGeom3 with
    implementation_cache := [("astra", ProjGeom.parallel 1 5 [0])] }

/-- The same geometry with a non-uniform detector partition. -/
def nonuniformGeom : Geometry :=
  { sampleGeom3 with det_partition_is_uniform := false }

/-! ### Claims -/

/-- Claim C1: for a 3-dimensional uniformly discretized grid passing the
anisotropy check, `astra_volume_geometry` returns a descriptor whose
column count is the axis-2 size, row count the axis-1 size, slice count
the axis-0 size, and whose window bounds are passed in the order
(axis-2 min, axis-2 max, axis-1 min, axis-1 max, axis-0 min, axis-0
max). -/
theorem C1_volume_geometry_3d (satisfies : String → String → Bool) (version : String)
    (d : DiscreteLp) (hu : d.is_uniform = true) (h3 : d.ndim = 3)
    (haniso : d.has_isotropic_cells = true ∨
      astra_supports satisfies version "anisotropic_voxels_3d" = true) :
    astra_volume_geometry satisfies version (.discr d) =
      .ok (.three
        { GridRowCount := d.partition_shape.getD 1 0
          GridColCount := d.partition_shape.getD 2 0
          GridSliceCount := d.partition_shape.getD 0 0
          WindowMinX := d.partition_min_pt.getD 2 0
          WindowMaxX := d.partition_max_pt.getD 2 0
          WindowMinY := d.partition_min_pt.getD 1 0
          WindowMaxY := d.partition_max_pt.getD 1 0
          WindowMinZ := d.partition_min_pt.getD 0 0
          WindowMaxZ := d.partition_max_pt.getD 0 0 }) := by
  have hcond : ¬(d.has_isotropic_cells = false ∧
      astra_supports satisfies version "anisotropic_voxels_3d" = false) := by
    rcases haniso with h | h <;> simp [h]
  simp [astra_volume_geometry, hu, h3, hcond, create_vol_geom3]

/-- Witness for C1 on a concrete 4 × 5 × 6 grid. -/
theorem C1_volume_geometry_3d_witness :
    (sampleGrid3.is_uniform = true ∧ sampleGrid3.ndim = 3 ∧
      sampleGrid3.has_isotropic_cells = true) ∧
    astra_volume_geometry (fun _ _ => false) "1.7" (.discr sampleGrid3) =
      .ok (.three
        { GridRowCount := 5
          GridColCount := 6
          GridSliceCount := 4
          WindowMinX := 2
          WindowMaxX := 12
          WindowMinY := 1
          WindowMaxY := 11
          WindowMinZ := 0
          WindowMaxZ := 10 }) :=
  ⟨by decide, C1_volume_geometry_3d (fun _ _ => false) "1.7" sampleGrid3 rfl rfl (Or.inl rfl)⟩

/-- Claim C7: a 2-dimensional uniform grid with anisotropic cells is
rejected under every backend version, because the feature matrix marks
`anisotropic_voxels_2d` unsupported in any version; no descriptor is
produced. -/
theorem C7_aniso_2d_rejected (satisfies : String → String → Bool) (version : String)
    (d : DiscreteLp) (hu : d.is_uniform = true) (h2 : d.ndim = 2)
    (ha : d.has_isotropic_cells = false) :
    astra_supports satisfies version "anisotropic_voxels_2d" = false ∧
    astra_volume_geometry satisfies version (.discr d) =
      .error (.notImplementedError
        ("non-isotropic pixels in 2d volumes not supported by ASTRA v" ++ version)) := by
  have hsup : astra_supports satisfies version "anisotropic_voxels_2d" = false := rfl
  refine ⟨hsup, ?_⟩
  simp [astra_volume_geometry, hu, h2, ha, hsup]

/-- Witness for C7 on a concrete anisotropic 4 × 5 grid. -/
theorem C7_aniso_2d_rejected_witness :
    (sampleGrid2aniso.is_uniform = true ∧ sampleGrid2aniso.ndim = 2 ∧
      sampleGrid2aniso.has_isotropic_cells = false) ∧
    (astra_supports (fun _ _ => true) "99.9" "anisotropic_voxels_2d" = false ∧
      astra_volume_geometry (fun _ _ => true) "99.9" (.discr sampleGrid2aniso) =
        .error (.notImplementedError
          ("non-isotropic pixels in 2d volumes not supported by ASTRA v" ++ "99.9"))) :=
  ⟨by decide, C7_aniso_2d_rejected (fun _ _ => true) "99.9" sampleGrid2aniso rfl rfl rfl⟩

/-- Claim C10: a non-uniformly discretized grid is rejected right after
the input-type check, before any dimension or anisotropy handling (the
conclusion holds for every dimension and isotropy flag), and no
descriptor is produced. -/
theorem C10_nonuniform_rejected (satisfies : String → String → Bool) (version : String)
    (d : DiscreteLp) (h : d.is_uniform = false) :
    astra_volume_geometry satisfies version (.discr d) =
      .error (.valueError "`discr_reco` is not uniformly discretized") := by
  simp [astra_volume_geometry, h]

/-- Witness for C10 on a concrete non-uniform 3D grid. -/
theorem C10_nonuniform_rejected_witness :
    ({ sampleGrid3 with is_uniform := false } : DiscreteLp).is_uniform = false ∧
    astra_volume_geometry (fun _ _ => true) "1.8"
        (.discr { sampleGrid3 with is_uniform := false }) =
      .error (.valueError "`discr_reco` is not uniformly discretized") :=
  ⟨by decide, C10_nonuniform_rejected (fun _ _ => true) "1.8"
    { sampleGrid3 with is_uniform := false } rfl⟩

/-- Claim C2: the Cone and Parallel3D builders emit one row per angle,
each obtained from the natural (x, y, z)-ordered row by the column
permutation `newind = [2,1,0, 5,4,3, 8,7,6, 11,10,9]`, which reverses
every 3-value group — each (a, b, c) triple becomes (c, b, a),
identically for all four triples — while the Fan (2D) builder returns
its rows unpermuted. -/
theorem C2_axis_permutation (g : Geometry) (k : Nat) (hk : k < g.angles.length) :
    newind = [2, 1, 0, 5, 4, 3, 8, 7, 6, 11, 10, 9] ∧
    (astra_conebeam_3d_geom_to_vec g).length = g.angles.length ∧
    (astra_parallel_3d_geom_to_vec g).length = g.angles.length ∧
    (astra_conebeam_3d_geom_to_vec g).getD k [] =
      permute_cols (conebeam_3d_row g (g.angles.getD k 0)) ∧
    (astra_parallel_3d_geom_to_vec g).getD k [] =
      permute_cols (parallel_3d_row g (g.angles.getD k 0)) ∧
    (∀ row : List ℚ, ∀ t j : Nat, t < 4 → j < 3 →
      (permute_cols row).getD (3 * t + j) 0 = row.getD (3 * t + (2 - j)) 0) ∧
    (astra_conebeam_2d_geom_to_vec g).getD k [] =
      conebeam_2d_row g (g.angles.getD k 0) := by
  refine ⟨by decide, ?_, ?_, ?_, ?_, ?_, ?_⟩
  · simp [astra_conebeam_3d_geom_to_vec]
  · simp [astra_parallel_3d_geom_to_vec]
  · simp [astra_conebeam_3d_geom_to_vec, List.map_map, Function.comp, List.getD,
      List.getElem?_map, List.getElem?_eq_getElem hk]
  · simp [astra_parallel_3d_geom_to_vec, List.map_map, Function.comp, List.getD,
      List.getElem?_map, List.getElem?_eq_getElem hk]
  · intro row t j ht hj
    interval_cases t <;> interval_cases j <;> rfl
  · simp [astra_conebeam_2d_geom_to_vec, List.getD, List.getElem?_map,
      List.getElem?_eq_getElem hk]

/-- Witness for C2 on a concrete one-angle geometry. -/
theorem C2_axis_permutation_witness :
    0 < sampleGeom3.angles.length ∧
    (newind = [2, 1, 0, 5, 4, 3, 8, 7, 6, 11, 10, 9] ∧
      (astra_conebeam_3d_geom_to_vec sampleGeom3).length = sampleGeom3.angles.length ∧
      (astra_parallel_3d_geom_to_vec sampleGeom3).length = sampleGeom3.angles.length ∧
      (astra_conebeam_3d_geom_to_vec sampleGeom3).getD 0 [] =
        permute_cols (conebeam_3d_row sampleGeom3 (sampleGeom3.angles.getD 0 0)) ∧
      (astra_parallel_3d_geom_to_vec sampleGeom3).getD 0 [] =
        permute_cols (parallel_3d_row sampleGeom3 (sampleGeom3.angles.getD 0 0)) ∧
      (∀ row : List ℚ, ∀ t j : Nat, t < 4 → j < 3 →
        (permute_cols row).getD (3 * t + j) 0 = row.getD (3 * t + (2 - j)) 0) ∧
      (astra_conebeam_2d_geom_to_vec sampleGeom3).getD 0 [] =
        conebeam_2d_row sampleGeom3 (sampleGeom3.angles.getD 0 0)) :=
  ⟨by simp [sampleGeom3], C2_axis_permutation sampleGeom3 0 (by simp [sampleGeom3])⟩

/-- Claim C3 (refuted by the identity comparison at source line 662): a
direction string that equals `'forward'` but is not the interned literal
(for instance one built at runtime, like `'FORWARD'.lower()`) passes the
equality-based validation, yet `direction is 'forward'` is false, so the
volume handle is filed under `ReconstructionDataId` — the backward key —
on a forward call (first conjunct).  Only the interned literal itself
takes the `VolumeDataId` branch the claim describes (second conjunct). -/
theorem C3_forward_not_interned_misroutes :
    astra_algorithm ⟨"forward", false⟩ 2 7 8 (some 5) "cpu" =
      .ok { cfgType := some "FP", projectorId := some 5, projectionDataId := 8,
            volumeDataId := none, reconstructionDataId := some 7 } ∧
    astra_algorithm ⟨"forward", true⟩ 2 7 8 (some 5) "cpu" =
      .ok { cfgType := some "FP", projectorId := some 5, projectionDataId := 8,
            volumeDataId := some 7, reconstructionDataId := none } :=
  ⟨rfl, rfl⟩

/-- Claim C8: a 3-dimensional request with a CPU target is rejected by
both the projector factory (given that the other argument validations
pass) and the algorithm factory, each with its unsupported-CPU-3D
error, and no handle is produced. -/
theorem C8_cpu_3d_rejected (satisfies : String → String → Bool) (version : String)
    (vol_interp : String) (vg : VolGeom) (pg : ProjGeomDict) (impl : String) (t : String)
    (hint : vol_interp = "nearest" ∨ vol_interp = "linear")
    (himpl : pyLower impl = "cpu") (htype : pg.typeEntry = some t) :
    astra_projector satisfies version vol_interp vg pg 3 impl =
      .error (.valueError "3D projectors not supported on CPU") ∧
    (∀ (direction : PyStr) (vol sino : Nat) (proj : Option Nat),
      direction.val = "forward" ∨ direction.val = "backward" →
      astra_algorithm direction 3 vol sino proj "cpu" =
        .error (.notImplementedError "3d algorithms for CPU not supported by ASTRA")) := by
  constructor
  · rcases hint with h | h <;> subst h <;> simp [astra_projector, himpl, htype]
  · intro direction vol sino proj hd
    rcases hd with h | h <;> simp [astra_algorithm, h]

/-- Witness for C8 with concrete arguments (and a mixed-case CPU tag). -/
theorem C8_cpu_3d_rejected_witness :
    (("nearest" = "nearest" ∨ "nearest" = "linear") ∧ pyLower "CPU" = "cpu" ∧
      (ProjGeomDict.mk (some "cone")).typeEntry = some "cone") ∧
    (astra_projector (fun _ _ => true) "1.8" "nearest"
        (.two (create_vol_geom2 1 1 0 1 0 1)) (ProjGeomDict.mk (some "cone")) 3 "CPU" =
      .error (.valueError "3D projectors not supported on CPU") ∧
    (∀ (direction : PyStr) (vol sino : Nat) (proj : Option Nat),
      direction.val = "forward" ∨ direction.val = "backward" →
      astra_algorithm direction 3 vol sino proj "cpu" =
        .error (.notImplementedError "3d algorithms for CPU not supported by ASTRA"))) :=
  ⟨by decide, C8_cpu_3d_rejected (fun _ _ => true) "1.8" "nearest"
    (.two (create_vol_geom2 1 1 0 1 0 1)) (ProjGeomDict.mk (some "cone")) "CPU" "cone"
    (Or.inl rfl) (by decide) rfl⟩

/-- Claim C4 (refuting the always-copy reading): with `allow_copy = true`
and a buffer that is already float32 and C-contiguous, `astra_data`
links the original backing storage itself (storage id 7, not the fresh
id 99), because `np.asarray` makes no copy when dtype and layout already
match — so backend mutations do reach the original; only a non-matching
buffer (second conjunct, float64) receives a fresh copy. -/
theorem C4_allow_copy_links_original_storage :
    astra_data 99 (37 : Nat) "volume" (.ndarray ⟨7, "float32", true, 2⟩) 2 true =
      .ok (.linked "-vol" 37 ⟨7, "float32", true, 2⟩) ∧
    astra_data 99 (37 : Nat) "volume" (.ndarray ⟨7, "float64", true, 2⟩) 2 true =
      .ok (.linked "-vol" 37 ⟨99, "float32", true, 2⟩) :=
  ⟨rfl, rfl⟩

/-- Claim C5: a cache hit returns the stored descriptor unchanged with no
recomputation (zero builder calls, cache untouched), and a second call on
the geometry as left by a successful first call is such a cache hit,
returning the same descriptor value. -/
theorem C5_cache_memoization (g : Geometry) :
    (∀ pg, assocFind g.implementation_cache "astra" = some pg →
      astra_projection_geometry (.geom g) = ⟨.ok pg, g.implementation_cache, 0⟩) ∧
    (∀ pg c n, astra_projection_geometry (.geom g) = ⟨.ok pg, c, n⟩ →
      astra_projection_geometry (.geom { g with implementation_cache := c }) =
        ⟨.ok pg, c, 0⟩) := by
  constructor
  · intro pg h
    simp [astra_projection_geometry, h]
  · intro pg c n h
    simp only [astra_projection_geometry] at h ⊢
    cases hfind : assocFind g.implementation_cache "astra" with
    | some cached =>
        rw [hfind] at h
        simp at h
        obtain ⟨h1, h2, h3⟩ := h
        subst h1; subst h2
        simp [hfind]
    | none =>
        rw [hfind] at h
        by_cases hu : g.det_partition_is_uniform = false
        · rw [if_pos hu] at h
          simp at h
        · rw [if_neg hu] at h
          cases hd : proj_geom_dispatch g with
          | error e =>
              rw [hd] at h
              simp at h
          | ok pr =>
              obtain ⟨pg', calls⟩ := pr
              rw [hd] at h
              simp at h
              obtain ⟨h1, h2, h3⟩ := h
              subst h1; subst h2
              simp [assocFind]

/-- Witness for C5: a concrete geometry with a pre-populated cache. -/
theorem C5_cache_memoization_witness :
    assocFind cachedGeom.implementation_cache "astra" =
      some (ProjGeom.parallel 1 5 [0]) ∧
    astra_projection_geometry (.geom cachedGeom) =
      ⟨.ok (ProjGeom.parallel 1 5 [0]), cachedGeom.implementation_cache, 0⟩ :=
  ⟨rfl, (C5_cache_memoization cachedGeom).1 (ProjGeom.parallel 1 5 [0]) rfl⟩

/-- Claim C6: whenever `astra_projection_geometry` raises, the geometry's
implementation cache is left exactly as it was (and, the result being an
exception, no descriptor is produced). -/
theorem C6_no_cache_write_on_error (g : Geometry) (e : Err)
    (h : (astra_projection_geometry (.geom g)).res = .error e) :
    (astra_projection_geometry (.geom g)).cache = g.implementation_cache := by
  simp only [astra_projection_geometry] at h ⊢
  cases hfind : assocFind g.implementation_cache "astra" with
  | some cached => rfl
  | none =>
      rw [hfind] at h
      by_cases hu : g.det_partition_is_uniform = false
      · simp [hu]
      · rw [if_neg hu] at h
        cases hd : proj_geom_dispatch g with
        | error e' => simp [hu, hd]
        | ok pr =>
            obtain ⟨pg, calls⟩ := pr
            rw [hd] at h
            simp at h

/-- Witness for C6: a non-uniform detector partition raises and the
(empty) cache is unchanged. -/
theorem C6_no_cache_write_on_error_witness :
    (astra_projection_geometry (.geom nonuniformGeom)).res =
      .error (.valueError "non-uniform detector sampling is not supported") ∧
    (astra_projection_geometry (.geom nonuniformGeom)).cache =
      nonuniformGeom.implementation_cache :=
  ⟨rfl, C6_no_cache_write_on_error nonuniformGeom
    (.valueError "non-uniform detector sampling is not supported") rfl⟩

/-- Claim C9: in the flat 3D branches, the vector descriptor's detector
row count is taken from detector-partition axis 1 and its column count
from axis 0, both for the parallel and for the divergent case. -/
theorem C9_det_row_col_counts (g : Geometry)
    (hc : assocFind g.implementation_cache "astra" = none)
    (hu : g.det_partition_is_uniform = true)
    (hf : g.detector_flat = true) (h3 : g.ndim = 3) :
    (g.beam = BeamCls.parallel →
      (astra_projection_geometry (.geom g)).res =
        .ok (.parallel3d_vec (g.det_partition_shape.getD 1 0)
          (g.det_partition_shape.getD 0 0) (astra_parallel_3d_geom_to_vec g))) ∧
    (g.beam = BeamCls.divergent →
      (astra_projection_geometry (.geom g)).res =
        .ok (.cone_vec (g.det_partition_shape.getD 1 0)
          (g.det_partition_shape.getD 0 0) (astra_conebeam_3d_geom_to_vec g))) := by
  constructor <;> intro hb <;>
    simp [astra_projection_geometry, hc, hu, proj_geom_dispatch, hb, hf, h3]

/-- Witness for C9: a parallel-beam flat 3D geometry with detector
partition shape [6, 7] yields row count 7 and column count 6. -/
theorem C9_det_row_col_counts_witness :
    (assocFind sampleGeom3.implementation_cache "astra" = none ∧
      sampleGeom3.det_partition_is_uniform = true ∧
      sampleGeom3.detector_flat = true ∧ sampleGeom3.ndim = 3 ∧
      sampleGeom3.beam = BeamCls.parallel) ∧
    (astra_projection_geometry (.geom sampleGeom3)).res =
      .ok (.parallel3d_vec 7 6 (astra_parallel_3d_geom_to_vec sampleGeom3)) :=
  ⟨by decide,
    (C9_det_row_col_counts sampleGeom3 rfl rfl rfl rfl).1 rfl⟩

end AstraSetup
